import Mathlib

/-!
Shallow embedding of src/app.py, a Flask proxy over the Upstox trading API.
Every upstream HTTP call is modelled by its result, supplied as an input to
the handler under scrutiny; each handler additionally returns the ordered
list of upstream calls it performed, so that properties of the form "the
order is never forwarded upstream" are expressible.  Python exceptions are
modelled with Except (an Except.error escaping a helper corresponds to an
exception reaching the enclosing try of the handler).  JSON numbers are
modelled as integers.
-/

/-- JSON values, as produced by request.json and response.json(). -/
inductive Json where
  | null
  | bool (b : Bool)
  | num (n : Int)
  | str (s : String)
  | arr (elems : List Json)
  | obj (fields : List (String × Json))

/-- First value stored under a key in a JSON object (Python dict keys are
unique, so first occurrence is the value). -/
def lookupKey (k : String) : List (String × Json) → Option Json
  | [] => none
  | (k2, v) :: kvs => if k2 = k then some v else lookupKey k kvs

/-- Python dict .get with a default: yields the value under the key (or the
default) when the receiver is a JSON object, and raises AttributeError
otherwise. -/
def Json.pyGet (j : Json) (k : String) (dflt : Json) : Except String Json :=
  match j with
  | .obj kvs => .ok ((lookupKey k kvs).getD dflt)
  | _ => .error "AttributeError"

/-- Numeric view taken where Python compares or multiplies a JSON value with
a number; Python bool is an int subtype, every other non-numeric value makes
the comparison raise TypeError. -/
def Json.asNum : Json → Except String Int
  | .num n => .ok n
  | .bool b => .ok (if b then 1 else 0)
  | _ => .error "TypeError"

/-- String view taken where Python calls .upper on a value (raises
AttributeError on non-strings). -/
def Json.asStr : Json → Except String String
  | .str s => .ok s
  | _ => .error "AttributeError"

/-- Python str rendering of a JSON value inside an f-string (container
rendering is abbreviated; no modelled behaviour depends on it). -/
def Json.pyStr : Json → String
  | .str s => s
  | .num n => toString n
  | .bool b => if b then "True" else "False"
  | .null => "None"
  | .arr _ => "[\x7b...\x7d]"
  | .obj _ => "\x7b...\x7d"

/-- Python str.upper, modelled character by character (agrees with the
library function on the ASCII transaction types used here, and reduces in
the kernel). -/
def strUpper (s : String) : String := String.mk (s.data.map Char.toUpper)

/-- Python equality test of a JSON value with the number zero (source line
100, price == 0): note that False == 0 holds in Python. -/
def pyEqZero : Json → Bool
  | .num n => n == 0
  | .bool b => !b
  | _ => false

/-- Python multiplication quantity * price where a numeric result is expected
(source line 116).  Non-numeric operands raise; both call sites reach this
with request or response numbers. -/
def pyMulNum (a b : Json) : Except String Int :=
  match a.asNum, b.asNum with
  | .ok x, .ok y => .ok (x * y)
  | .error e, _ => .error e
  | _, .error e => .error e

/-- Result of a completed upstream HTTP request: status code, parsed JSON
body (none when response.json() would raise), and the raw text. -/
structure HttpResponse where
  status : Nat
  json : Option Json
  text : String

/-- Outcome of issuing an upstream HTTP request: either a network exception
with its message, or a response. -/
inductive UpstreamResult where
  | exn (msg : String)
  | ok (r : HttpResponse)

/-- Upstream endpoints the app calls; handlers return the list of calls they
performed, in order. -/
inductive Call where
  | quoteLookup (instrument : String)
  | fundsMargin
  | orderPlace
  | orderDetails (order_id : String)
  | orderModify (order_id : String)
  | userProfile
deriving DecidableEq

/-- Local response of a Flask handler: JSON body, HTTP status code, and the
trace of upstream calls performed while computing it. -/
structure HandlerResult where
  body : Json
  status : Nat
  calls : List Call

/-- Default add-funds URL (source line 29). -/
def UPSTOX_FUNDS_URL : String := "https://upstox.com/funds/add"

/-- Product type mapping (source lines 35-41). -/
def PRODUCT_MAP : List (String × String) :=
  [("CNC", "D"), ("INTRADAY", "I"), ("MIS", "MIS"), ("CO", "CO"), ("BO", "BO")]

/-- Python membership test of a JSON value in PRODUCT_MAP (source lines 292
and 378); dict and list values are unhashable and raise TypeError. -/
def pyInProductMap : Json → Except String Bool
  | .obj _ => .error "TypeError"
  | .arr _ => .error "TypeError"
  | .str s => .ok ((PRODUCT_MAP.lookup s).isSome)
  | _ => .ok false

/-- Body of jsonify with a single error key, the shape used by 400/500
returns and by the handler-boundary except blocks. -/
def jsonError (msg : String) : Json := Json.obj [("error", Json.str msg)]

/-- Python str of an optional funds-check message interpolated into an
f-string (None renders as the text None). -/
def optStr : Option String → String
  | some s => s
  | none => "None"

/-- JSON value of an optional message under jsonify (None becomes null). -/
def optJson : Option String → Json
  | some s => Json.str s
  | none => Json.null

/-- Decorator token_required (source lines 51-58): with a falsy ACCESS_TOKEN
(the empty string) every guarded handler answers 401 before running. -/
def token_required (token : String) (handler : Unit → HandlerResult) : HandlerResult :=
  if token = "" then
    { body := jsonError "Missing API token", status := 401, calls := [] }
  else handler ()

/-- Error message extraction of handle_response (source lines 66-67):
error_data.get with key error and default empty dict, then .get with key
message and default Unknown error; a non-dict along the way raises and is
caught by the bare except of line 68. -/
def extractErrMsg (j : Json) : Except String Json :=
  match j with
  | .obj kvs =>
    match (lookupKey "error" kvs).getD (Json.obj []) with
    | .obj kvs2 => .ok ((lookupKey "message" kvs2).getD (Json.str "Unknown error"))
    | _ => .error "AttributeError"
  | _ => .error "AttributeError"

/-- Message field of the normalized error body (source lines 65-69): the
extracted upstream message, or response.text (or Unknown error when the text
is empty) when parsing or extraction raises. -/
def respErrMsg (r : HttpResponse) : Json :=
  match r.json with
  | some j =>
    match extractErrMsg j with
    | .ok m => m
    | .error _ => Json.str (if r.text = "" then "Unknown error" else r.text)
  | none => Json.str (if r.text = "" then "Unknown error" else r.text)

/-- handle_response (source lines 60-76).  On 200/201 the upstream JSON is
passed through with the upstream status; a parse failure there raises out of
the function (the Except.error case, caught at the calling handler).  Every
other status is normalized to a status/code/message body carrying the
upstream status code. -/
def handle_response (r : HttpResponse) : Except String (Json × Nat) :=
  if r.status = 200 ∨ r.status = 201 then
    match r.json with
    | some j => .ok (j, r.status)
    | none => .error "JSONDecodeError"
  else
    .ok (Json.obj [("status", Json.str "error"),
                   ("code", Json.num (Int.ofNat r.status)),
                   ("message", respErrMsg r)], r.status)

/-- validate_instrument (source lines 78-94): one quote lookup; any status
other than 200 means an invalid token, an exception yields its message. -/
def validate_instrument (quoteResult : UpstreamResult) (instrument_token : String) :
    (Bool × Option String) × List Call :=
  match quoteResult with
  | .exn e => ((false, some e), [Call.quoteLookup instrument_token])
  | .ok r =>
    if r.status ≠ 200 then
      ((false, some "Invalid instrument token"), [Call.quoteLookup instrument_token])
    else ((true, none), [Call.quoteLookup instrument_token])

/-- Last traded price extraction (source lines 111-112): the .get chain over
data, the instrument token, and last_price with default 0, followed by the
numeric comparison last_price > 0 of line 113. -/
def lastPriceOf (j : Json) (instrument_token : String) : Except String Int :=
  match j.pyGet "data" (Json.obj []) with
  | .error e => .error e
  | .ok d =>
    match d.pyGet instrument_token (Json.obj []) with
    | .error e => .error e
    | .ok q =>
      match q.pyGet "last_price" (Json.num 0) with
      | .error e => .error e
      | .ok lp => lp.asNum

/-- Available margin extraction (source lines 130-131): the .get chain over
data, equity, and available_margin with default 0, followed by the numeric
comparison of line 133. -/
def availableMarginOf (j : Json) : Except String Int :=
  match j.pyGet "data" (Json.obj []) with
  | .error e => .error e
  | .ok d =>
    match d.pyGet "equity" (Json.obj []) with
    | .error e => .error e
    | .ok eqy =>
      match eqy.pyGet "available_margin" (Json.num 0) with
      | .error e => .error e
      | .ok am => am.asNum

/-- Insufficient-funds message (source line 134). -/
def insuffMsg (required available : Int) : String :=
  "Insufficient funds. Required: " ++ toString required ++
    ", Available: " ++ toString available

/-- Funds decision once the price is resolved (source lines 115-136):
compute the estimated cost, and for BUY orders fetch the available margin
and compare it to the cost; SELL orders pass. -/
def fundsDecision (fundsResult : UpstreamResult) (transaction_type : String)
    (quantity price : Json) : (Bool × Option String) × List Call :=
  match pyMulNum quantity price with
  | .error e => ((false, some e), [])
  | .ok estimated_cost =>
    if strUpper transaction_type == "BUY" then
      match fundsResult with
      | .exn e => ((false, some e), [Call.fundsMargin])
      | .ok fr =>
        if fr.status ≠ 200 then
          ((false, some "Failed to get funds information"), [Call.fundsMargin])
        else
          match fr.json with
          | none => ((false, some "JSONDecodeError"), [Call.fundsMargin])
          | some j =>
            match availableMarginOf j with
            | .error e => ((false, some e), [Call.fundsMargin])
            | .ok available_funds =>
              if available_funds < estimated_cost then
                ((false, some (insuffMsg estimated_cost available_funds)), [Call.fundsMargin])
              else ((true, none), [Call.fundsMargin])
    else ((true, none), [])

/-- Price resolution (source lines 100-113): when price == 0 a quote lookup
is made; its failure modes short-circuit the whole check (the Sum.inl case),
otherwise the resolved price is the last traded price when positive and the
fallback constant 1000 otherwise.  A nonzero price is used as given, with no
lookup. -/
def priceResolution (quoteResult : UpstreamResult) (instrument_token : String)
    (price : Json) : ((Bool × Option String) ⊕ Json) × List Call :=
  if pyEqZero price then
    match quoteResult with
    | .exn e => (.inl (false, some e), [Call.quoteLookup instrument_token])
    | .ok qr =>
      if qr.status ≠ 200 then
        (.inl (false, some "Failed to get stock quote"), [Call.quoteLookup instrument_token])
      else
        match qr.json with
        | none => (.inl (false, some "JSONDecodeError"), [Call.quoteLookup instrument_token])
        | some j =>
          match lastPriceOf j instrument_token with
          | .error e => (.inl (false, some e), [Call.quoteLookup instrument_token])
          | .ok last_price =>
            (.inr (Json.num (if last_price > 0 then last_price else 1000)),
             [Call.quoteLookup instrument_token])
  else (.inr price, [])

/-- check_sufficient_funds (source lines 96-139), as price resolution
followed by the funds decision; every exception inside the Python try is
reflected as a (false, message) result, never re-raised. -/
def check_sufficient_funds (quoteResult fundsResult : UpstreamResult)
    (transaction_type instrument_token : String) (quantity price : Json) :
    (Bool × Option String) × List Call :=
  match priceResolution quoteResult instrument_token price with
  | (.inl r, cs) => (r, cs)
  | (.inr p, cs) =>
    let d := fundsDecision fundsResult transaction_type quantity p
    (d.1, cs ++ d.2)

/-- Request body of POST /orders restricted to the fields the handler
inspects.  Payload-only fields (validity, tag, disclosed_quantity,
trigger_price, is_amo) do not affect the local response and are omitted;
fields that the handler only forwards are kept as JSON values.  The
transaction type has .upper called on it (source line 301) and the
instrument token is interpolated into URLs, so both are strings. -/
structure OrderReq where
  instrument_token : Option String
  quantity : Option Json
  order_type : Option Json
  product : Option Json
  transaction_type : Option String
  price : Option Json

/-- Missing required fields, in the order of required_fields (source lines
287-289). -/
def missingFields (d : OrderReq) : List String :=
  (if d.instrument_token.isNone then ["instrument_token"] else []) ++
  (if d.quantity.isNone then ["quantity"] else []) ++
  (if d.order_type.isNone then ["order_type"] else []) ++
  (if d.product.isNone then ["product"] else []) ++
  (if d.transaction_type.isNone then ["transaction_type"] else [])

/-- Results of the upstream calls POST /orders can make: the validation
quote, the funds-check quote, the funds-and-margin lookup, and the order
placement itself. -/
structure PlaceWorld where
  validateQuote : UpstreamResult
  fundsQuote : UpstreamResult
  fundsMargin : UpstreamResult
  place : UpstreamResult

/-- Order submission and response mapping of place_order (source lines
332-351): a 200/201 reply is wrapped in a success envelope with order_data
(Flask default status 200), other statuses go through handle_response, and
exceptions are caught at the handler boundary as a 500 error body. -/
def submitOrder (w : PlaceWorld) (transaction_type : String) (prior : List Call) :
    HandlerResult :=
  match w.place with
  | .exn e => { body := jsonError e, status := 500, calls := prior ++ [Call.orderPlace] }
  | .ok r =>
    if r.status = 200 ∨ r.status = 201 then
      match r.json with
      | none => { body := jsonError "JSONDecodeError", status := 500,
                  calls := prior ++ [Call.orderPlace] }
      | some result =>
        { body := Json.obj [("status", Json.str "success"),
                            ("message", Json.str (transaction_type ++ " order placed successfully")),
                            ("order_data", result)],
          status := 200, calls := prior ++ [Call.orderPlace] }
    else
      match handle_response r with
      | .ok (b, s) => { body := b, status := s, calls := prior ++ [Call.orderPlace] }
      | .error e => { body := jsonError e, status := 500, calls := prior ++ [Call.orderPlace] }

/-- place_order, POST /orders (source lines 281-351): missing-field check,
product check, instrument validation, BUY-only funds check with the 303
redirect outcome, then submission.  A request body in which one of the five
required fields is absent takes the missing-fields branch. -/
def place_order (w : PlaceWorld) (d : OrderReq) : HandlerResult :=
  match d.instrument_token, d.quantity, d.order_type, d.product, d.transaction_type with
  | some tok, some qty, some _, some product, some tt =>
    match pyInProductMap product with
    | .error e => { body := jsonError e, status := 500, calls := [] }
    | .ok inMap =>
      if !inMap then { body := jsonError "Invalid product type", status := 400, calls := [] }
      else
        let v := validate_instrument w.validateQuote tok
        if !v.1.1 then
          { body := jsonError ("Invalid instrument: " ++ optStr v.1.2),
            status := 400, calls := v.2 }
        else if strUpper tt == "BUY" then
          let c := check_sufficient_funds w.fundsQuote w.fundsMargin tt tok qty
            (d.price.getD (Json.num 0))
          if !c.1.1 then
            { body := Json.obj [("status", Json.str "redirect"),
                                ("message", optJson c.1.2),
                                ("redirect_url", Json.str (UPSTOX_FUNDS_URL ++
                                  "?reason=insufficient_funds&error=" ++ optStr c.1.2 ++
                                  "&instrument=" ++ tok))],
              status := 303, calls := v.2 ++ c.2 }
          else submitOrder w tt (v.2 ++ c.2)
        else submitOrder w tt v.2
  | _, _, _, _, _ =>
    { body := jsonError ("Missing fields: " ++ String.intercalate ", " (missingFields d)),
      status := 400, calls := [] }

/-- get_profile, GET /profile (source lines 205-218): one upstream call fed
to handle_response; request exceptions are caught as a 500 error body.  The
other plain passthrough endpoints (portfolio, holdings, order list, order
details, cancel, market quote, funds) have this exact shape. -/
def get_profile (profileResult : UpstreamResult) : HandlerResult :=
  match profileResult with
  | .exn e => { body := jsonError e, status := 500, calls := [Call.userProfile] }
  | .ok r =>
    match handle_response r with
    | .ok (b, s) => { body := b, status := s, calls := [Call.userProfile] }
    | .error e => { body := jsonError e, status := 500, calls := [Call.userProfile] }

/-- Request body of PUT /orders/(id) restricted to valid_fields (source lines
373-375); keys outside valid_fields are dropped by the comprehension and are
therefore not represented. -/
structure ModReq where
  quantity : Option Json
  price : Option Json
  order_type : Option Json
  validity : Option Json
  disclosed_quantity : Option Json
  trigger_price : Option Json
  product : Option Json

/-- Product guard of modify_order (source lines 377-380); the PRODUCT_MAP
value rewrite only affects the upstream payload, which is not modelled. -/
def modProductGuard (product : Option Json) : Except String (Option HandlerResult) :=
  match product with
  | none => .ok none
  | some p =>
    match pyInProductMap p with
    | .error e => .error e
    | .ok b =>
      if b then .ok none
      else .ok (some { body := jsonError "Invalid product type", status := 400, calls := [] })

/-- Fields read from the order-details body (source lines 393-403): the
transaction type (a string, since .upper is called on it on line 398), the
instrument token, and the original quantity and price with their defaults. -/
def orderDataFields (j : Json) : Except String (String × String × Json × Json) :=
  match j.pyGet "data" (Json.obj []) with
  | .error e => .error e
  | .ok d =>
    match d.pyGet "transaction_type" (Json.str "") with
    | .error e => .error e
    | .ok ttj =>
      match ttj.asStr with
      | .error e => .error e
      | .ok tt =>
        match d.pyGet "instrument_token" (Json.str ""), d.pyGet "quantity" (Json.num 0),
              d.pyGet "price" (Json.num 0) with
        | .ok tokj, .ok q, .ok p => .ok (tt, tokj.pyStr, q, p)
        | .error e, _, _ => .error e
        | _, .error e, _ => .error e
        | _, _, .error e => .error e

/-- Results of the upstream calls PUT /orders/(id) can make. -/
structure ModifyWorld where
  details : UpstreamResult
  fundsQuote : UpstreamResult
  fundsMargin : UpstreamResult
  modifyResult : UpstreamResult

/-- Upstream modification call and response mapping (source lines 421-432);
exceptions, including a parse failure inside handle_response on a 2xx reply,
are caught at the handler boundary as a 500 error body. -/
def doModify (w : ModifyWorld) (order_id : String) (prior : List Call) : HandlerResult :=
  match w.modifyResult with
  | .exn e => { body := jsonError e, status := 500, calls := prior ++ [Call.orderModify order_id] }
  | .ok r =>
    match handle_response r with
    | .ok (b, s) => { body := b, status := s, calls := prior ++ [Call.orderModify order_id] }
    | .error e => { body := jsonError e, status := 500, calls := prior ++ [Call.orderModify order_id] }

/-- modify_order, PUT /orders/(id) (source lines 367-432): product guard,
order-details lookup (failure is a 500 without forwarding), then the funds
check re-run only for BUY orders whose modification touches quantity or
price, with the 303 redirect carrying the order id. -/
def modify_order (w : ModifyWorld) (order_id : String) (m : ModReq) : HandlerResult :=
  match modProductGuard m.product with
  | .error e => { body := jsonError e, status := 500, calls := [] }
  | .ok (some r) => r
  | .ok none =>
    match w.details with
    | .exn e => { body := jsonError e, status := 500, calls := [Call.orderDetails order_id] }
    | .ok dr =>
      if dr.status ≠ 200 then
        { body := jsonError "Failed to retrieve original order details", status := 500,
          calls := [Call.orderDetails order_id] }
      else
        match dr.json with
        | none => { body := jsonError "JSONDecodeError", status := 500,
                    calls := [Call.orderDetails order_id] }
        | some j =>
          match orderDataFields j with
          | .error e => { body := jsonError e, status := 500,
                          calls := [Call.orderDetails order_id] }
          | .ok (tt, tok, oq, op) =>
            if strUpper tt == "BUY" && (m.quantity.isSome || m.price.isSome) then
              let c := check_sufficient_funds w.fundsQuote w.fundsMargin tt tok
                (m.quantity.getD oq) (m.price.getD op)
              if !c.1.1 then
                { body := Json.obj [("status", Json.str "redirect"),
                                    ("message", optJson c.1.2),
                                    ("redirect_url", Json.str (UPSTOX_FUNDS_URL ++
                                      "?reason=insufficient_funds&error=" ++ optStr c.1.2 ++
                                      "&instrument=" ++ tok ++ "&order_id=" ++ order_id))],
                  status := 303, calls := Call.orderDetails order_id :: c.2 }
              else doModify w order_id (Call.orderDetails order_id :: c.2)
            else doModify w order_id [Call.orderDetails order_id]

/-- POST /orders behind the token_required decorator. -/
def place_order_route (token : String) (w : PlaceWorld) (d : OrderReq) : HandlerResult :=
  token_required token (fun _ => place_order w d)

/-- PUT /orders/(id) behind the token_required decorator. -/
def modify_order_route (token : String) (w : ModifyWorld) (order_id : String)
    (m : ModReq) : HandlerResult :=
  token_required token (fun _ => modify_order w order_id m)

/-- GET /profile behind the token_required decorator. -/
def get_profile_route (token : String) (u : UpstreamResult) : HandlerResult :=
  token_required token (fun _ => get_profile u)

/-! Concrete worlds and requests used by the closed instances below. -/

/-- Quote validation succeeds, the funds endpoint reports 500 less margin
than a 10 x 100 limit order needs. -/
def wInsufficient : PlaceWorld where
  validateQuote := .ok ⟨200, none, ""⟩
  fundsQuote := .exn "unused"
  fundsMargin := .ok ⟨200, some (Json.obj [("data", Json.obj [("equity",
    Json.obj [("available_margin", Json.num 500)])])]), ""⟩
  place := .exn "unused"

/-- Quote validation succeeds, the funds endpoint answers HTTP 500. -/
def wFundsDown : PlaceWorld where
  validateQuote := .ok ⟨200, none, ""⟩
  fundsQuote := .exn "unused"
  fundsMargin := .ok ⟨500, none, "server error"⟩
  place := .exn "unused"

/-- A well-formed BUY limit order request: 10 units at price 100. -/
def reqBuyLimit : OrderReq where
  instrument_token := some "NSE_EQ|X"
  quantity := some (Json.num 10)
  order_type := some (Json.str "LIMIT")
  product := some (Json.str "CNC")
  transaction_type := some "BUY"
  price := some (Json.num 100)

/-! Helper lemmas shared by the claim theorems. -/

/-- The insufficient-funds message is never the empty string. -/
theorem insuffMsg_ne_empty (c a : Int) : insuffMsg c a ≠ "" := by
  intro h
  have h2 := congrArg String.length h
  simp [insuffMsg, String.length_append] at h2
  exact absurd h2.1.1.1 (by decide)

/-- Price resolution only ever performs the quote lookup for the given
instrument. -/
theorem priceResolution_calls (q : UpstreamResult) (tok : String) (p : Json) :
    ∀ c ∈ (priceResolution q tok p).2, c = Call.quoteLookup tok := by
  intro c hc
  unfold priceResolution at hc
  repeat' split at hc
  all_goals simp_all

/-- When the product guard of modify_order short-circuits, it has performed
no upstream call. -/
theorem modProductGuard_some_calls {p : Option Json} {r : HandlerResult}
    (h : modProductGuard p = Except.ok (some r)) : r.calls = [] := by
  unfold modProductGuard at h
  repeat' split at h
  all_goals simp_all
  subst h; rfl

/-- C1: a BUY order placed via POST /orders whose estimated cost (quantity
times resolved price) exceeds the available margin returned by the funds
endpoint is answered with HTTP 303 and a body with status redirect, a
non-empty message naming the required and available amounts, and a
redirect_url ending in the instrument token; the order is never forwarded to
the upstream order-placement endpoint. -/
theorem place_order_insufficient_funds_redirect
    (w : PlaceWorld) (tok : String) (qty : Int) (ot prod : Json) (tt : String)
    (pr : Option Json) (vr fr : HttpResponse) (fj : Json) (rp m : Int) (qcalls : List Call)
    (hprod : pyInProductMap prod = Except.ok true)
    (hbuy : strUpper tt = "BUY")
    (hv : w.validateQuote = UpstreamResult.ok vr) (hvs : vr.status = 200)
    (hres : priceResolution w.fundsQuote tok (pr.getD (Json.num 0))
      = (Sum.inr (Json.num rp), qcalls))
    (hf : w.fundsMargin = UpstreamResult.ok fr) (hfs : fr.status = 200)
    (hfj : fr.json = some fj) (hm : availableMarginOf fj = Except.ok m)
    (hlt : m < qty * rp) :
    place_order w ⟨some tok, some (Json.num qty), some ot, some prod, some tt, pr⟩
      = { body := Json.obj [("status", Json.str "redirect"),
                            ("message", Json.str (insuffMsg (qty * rp) m)),
                            ("redirect_url", Json.str (UPSTOX_FUNDS_URL ++
                              "?reason=insufficient_funds&error=" ++ insuffMsg (qty * rp) m ++
                              "&instrument=" ++ tok))],
          status := 303,
          calls := Call.quoteLookup tok :: (qcalls ++ [Call.fundsMargin]) }
      ∧ insuffMsg (qty * rp) m ≠ ""
      ∧ Call.orderPlace ∉ Call.quoteLookup tok :: (qcalls ++ [Call.fundsMargin]) := by
  refine ⟨?_, insuffMsg_ne_empty _ _, ?_⟩
  · simp only [place_order, hprod, hv, validate_instrument, hvs, hbuy,
      check_sufficient_funds, hres, fundsDecision, pyMulNum, Json.asNum, hf, hfs, hfj, hm,
      optStr, optJson]
    simp [hlt]
  · intro hmem
    rcases List.mem_cons.1 hmem with h1 | h1
    · exact Call.noConfusion h1
    rcases List.mem_append.1 h1 with h2 | h2
    · have h3 := priceResolution_calls w.fundsQuote tok (pr.getD (Json.num 0))
        Call.orderPlace (by rw [hres]; exact h2)
      exact Call.noConfusion h3
    · simp at h2

/-- Witness for C1: 10 units at price 100 against a margin of 500 produce
the 303 redirect and no upstream placement. -/
theorem place_order_insufficient_funds_redirect_witness :
    place_order wInsufficient
        ⟨some "NSE_EQ|X", some (Json.num 10), some (Json.str "LIMIT"),
         some (Json.str "CNC"), some "BUY", some (Json.num 100)⟩
      = { body := Json.obj [("status", Json.str "redirect"),
                            ("message", Json.str (insuffMsg (10 * 100) 500)),
                            ("redirect_url", Json.str (UPSTOX_FUNDS_URL ++
                              "?reason=insufficient_funds&error=" ++ insuffMsg (10 * 100) 500 ++
                              "&instrument=" ++ "NSE_EQ|X"))],
          status := 303,
          calls := Call.quoteLookup "NSE_EQ|X" :: ([] ++ [Call.fundsMargin]) }
      ∧ insuffMsg (10 * 100) 500 ≠ ""
      ∧ Call.orderPlace ∉ Call.quoteLookup "NSE_EQ|X" :: ([] ++ [Call.fundsMargin]) :=
  place_order_insufficient_funds_redirect wInsufficient "NSE_EQ|X" 10 (Json.str "LIMIT")
    (Json.str "CNC") "BUY" (some (Json.num 100)) ⟨200, none, ""⟩
    ⟨200, some (Json.obj [("data", Json.obj [("equity",
      Json.obj [("available_margin", Json.num 500)])])]), ""⟩
    (Json.obj [("data", Json.obj [("equity", Json.obj [("available_margin", Json.num 500)])])])
    100 500 [] rfl rfl rfl rfl rfl rfl rfl rfl rfl (by decide)

/-- Counterexample to C2: with the funds endpoint answering HTTP 500, the
BUY order is answered with HTTP 303 (a redirect carrying the message Failed
to get funds information), not with HTTP 500 as the claim states. -/
theorem funds_lookup_failure_yields_303 :
    (place_order wFundsDown reqBuyLimit).status = 303 ∧
    (place_order wFundsDown reqBuyLimit).status ≠ 500 ∧
    wFundsDown.fundsMargin = UpstreamResult.ok ⟨500, none, "server error"⟩ ∧
    (place_order wFundsDown reqBuyLimit).body
      = Json.obj [("status", Json.str "redirect"),
          ("message", Json.str "Failed to get funds information"),
          ("redirect_url", Json.str
            "https://upstox.com/funds/add?reason=insufficient_funds&error=Failed to get funds information&instrument=NSE_EQ|X")] :=
  ⟨rfl, by decide, rfl, rfl⟩

/-- C2 amended: for every BUY order with numeric cost whose funds lookup
does not return HTTP 200, the check fails with the message Failed to get
funds information and the handler answers HTTP 303 with a redirect body
carrying that message (not HTTP 500); the order is not forwarded upstream. -/
theorem place_order_funds_lookup_failure_redirects
    (w : PlaceWorld) (tok : String) (qty ot prod : Json) (tt : String)
    (pr : Option Json) (vr fr : HttpResponse) (p2 : Json) (cost : Int) (qcalls : List Call)
    (hprod : pyInProductMap prod = Except.ok true)
    (hbuy : strUpper tt = "BUY")
    (hv : w.validateQuote = UpstreamResult.ok vr) (hvs : vr.status = 200)
    (hres : priceResolution w.fundsQuote tok (pr.getD (Json.num 0)) = (Sum.inr p2, qcalls))
    (hmul : pyMulNum qty p2 = Except.ok cost)
    (hf : w.fundsMargin = UpstreamResult.ok fr) (hfs : fr.status ≠ 200) :
    place_order w ⟨some tok, some qty, some ot, some prod, some tt, pr⟩
      = { body := Json.obj [("status", Json.str "redirect"),
                            ("message", Json.str "Failed to get funds information"),
                            ("redirect_url", Json.str (UPSTOX_FUNDS_URL ++
                              "?reason=insufficient_funds&error=" ++
                              "Failed to get funds information" ++
                              "&instrument=" ++ tok))],
          status := 303,
          calls := Call.quoteLookup tok :: (qcalls ++ [Call.fundsMargin]) }
      ∧ Call.orderPlace ∉ Call.quoteLookup tok :: (qcalls ++ [Call.fundsMargin]) := by
  refine ⟨?_, ?_⟩
  · simp only [place_order, hprod, hv, validate_instrument, hvs, hbuy,
      check_sufficient_funds, hres, fundsDecision, hmul, hf, optStr, optJson]
    simp [hfs]
  · intro hmem
    rcases List.mem_cons.1 hmem with h1 | h1
    · exact Call.noConfusion h1
    rcases List.mem_append.1 h1 with h2 | h2
    · have h3 := priceResolution_calls w.fundsQuote tok (pr.getD (Json.num 0))
        Call.orderPlace (by rw [hres]; exact h2)
      exact Call.noConfusion h3
    · simp at h2

/-- Witness for the amended C2. -/
theorem place_order_funds_lookup_failure_redirects_witness :
    place_order wFundsDown
        ⟨some "NSE_EQ|X", some (Json.num 10), some (Json.str "LIMIT"),
         some (Json.str "CNC"), some "BUY", some (Json.num 100)⟩
      = { body := Json.obj [("status", Json.str "redirect"),
                            ("message", Json.str "Failed to get funds information"),
                            ("redirect_url", Json.str (UPSTOX_FUNDS_URL ++
                              "?reason=insufficient_funds&error=" ++
                              "Failed to get funds information" ++
                              "&instrument=" ++ "NSE_EQ|X"))],
          status := 303,
          calls := Call.quoteLookup "NSE_EQ|X" :: ([] ++ [Call.fundsMargin]) }
      ∧ Call.orderPlace ∉ Call.quoteLookup "NSE_EQ|X" :: ([] ++ [Call.fundsMargin]) :=
  place_order_funds_lookup_failure_redirects wFundsDown "NSE_EQ|X" (Json.num 10)
    (Json.str "LIMIT") (Json.str "CNC") "BUY" (some (Json.num 100)) ⟨200, none, ""⟩
    ⟨500, none, "server error"⟩ (Json.num 100) (10 * 100) [] rfl rfl rfl rfl rfl rfl rfl
    (by decide)

/-- Instrument validation quote answers HTTP 404; other endpoints would
report ample funds, which must not matter. -/
def wBadInstrument : PlaceWorld where
  validateQuote := .ok ⟨404, none, ""⟩
  fundsQuote := .ok ⟨200, some (Json.obj []), ""⟩
  fundsMargin := .ok ⟨200, some (Json.obj [("data", Json.obj [("equity",
    Json.obj [("available_margin", Json.num 1000000)])])]), ""⟩
  place := .ok ⟨200, some (Json.obj []), ""⟩

/-- C3: when the validation quote lookup does not return HTTP 200, the order
request is answered with HTTP 400 and an Invalid instrument message, no
matter what the funds endpoints would say, and the upstream order placement
is never attempted. -/
theorem place_order_invalid_instrument_400
    (w : PlaceWorld) (tok : String) (qty ot prod : Json) (tt : String) (pr : Option Json)
    (vr : HttpResponse)
    (hprod : pyInProductMap prod = Except.ok true)
    (hv : w.validateQuote = UpstreamResult.ok vr) (hvs : vr.status ≠ 200) :
    place_order w ⟨some tok, some qty, some ot, some prod, some tt, pr⟩
      = { body := jsonError "Invalid instrument: Invalid instrument token",
          status := 400, calls := [Call.quoteLookup tok] }
      ∧ Call.orderPlace ∉ [Call.quoteLookup tok]
      ∧ Call.fundsMargin ∉ [Call.quoteLookup tok] := by
  refine ⟨?_, by simp, by simp⟩
  simp only [place_order, hprod, hv, validate_instrument, optStr]
  simp [hvs]

/-- Witness for C3. -/
theorem place_order_invalid_instrument_400_witness :
    place_order wBadInstrument
        ⟨some "NSE_EQ|X", some (Json.num 10), some (Json.str "LIMIT"),
         some (Json.str "CNC"), some "BUY", some (Json.num 100)⟩
      = { body := jsonError "Invalid instrument: Invalid instrument token",
          status := 400, calls := [Call.quoteLookup "NSE_EQ|X"] }
      ∧ Call.orderPlace ∉ [Call.quoteLookup "NSE_EQ|X"]
      ∧ Call.fundsMargin ∉ [Call.quoteLookup "NSE_EQ|X"] :=
  place_order_invalid_instrument_400 wBadInstrument "NSE_EQ|X" (Json.num 10)
    (Json.str "LIMIT") (Json.str "CNC") "BUY" (some (Json.num 100)) ⟨404, none, ""⟩
    rfl rfl (by decide)

/-- C4: for an order with price 0 the funds check fetches the last traded
price via a quote lookup, and when that price is absent or nonpositive the
resolved price is the fallback constant 1000; the estimated cost compared
against the margin is then quantity times 1000. -/
theorem funds_check_fallback_price_1000
    (quote funds : UpstreamResult) (tok tt : String)
    (qr fr : HttpResponse) (j fj : Json) (lp m q : Int)
    (hq : quote = UpstreamResult.ok qr) (hqs : qr.status = 200) (hqj : qr.json = some j)
    (hlp : lastPriceOf j tok = Except.ok lp) (hle : lp ≤ 0)
    (hbuy : strUpper tt = "BUY")
    (hf : funds = UpstreamResult.ok fr) (hfs : fr.status = 200) (hfj : fr.json = some fj)
    (hm : availableMarginOf fj = Except.ok m) :
    priceResolution quote tok (Json.num 0)
      = (Sum.inr (Json.num 1000), [Call.quoteLookup tok])
    ∧ check_sufficient_funds quote funds tt tok (Json.num q) (Json.num 0)
      = (if m < q * 1000 then (false, some (insuffMsg (q * 1000) m)) else (true, none),
         [Call.quoteLookup tok, Call.fundsMargin]) := by
  have h1 : priceResolution quote tok (Json.num 0)
      = (Sum.inr (Json.num 1000), [Call.quoteLookup tok]) := by
    simp only [priceResolution, pyEqZero, hq, hqj, hlp]
    simp [hqs, not_lt.2 hle]
  refine ⟨h1, ?_⟩
  simp only [check_sufficient_funds, h1, fundsDecision, pyMulNum, Json.asNum, hbuy,
    hf, hfj, hm]
  by_cases hc : m < q * 1000 <;> simp [hfs, hc]

/-- Witness for C4: the quote body carries no last_price, the margin is 300,
and a 5 unit market order resolves to cost 5000 and is rejected. -/
theorem funds_check_fallback_price_1000_witness :
    priceResolution (UpstreamResult.ok ⟨200, some (Json.obj [("data",
        Json.obj [("NSE_EQ|X", Json.obj [])])]), ""⟩) "NSE_EQ|X" (Json.num 0)
      = (Sum.inr (Json.num 1000), [Call.quoteLookup "NSE_EQ|X"])
    ∧ check_sufficient_funds
        (UpstreamResult.ok ⟨200, some (Json.obj [("data",
          Json.obj [("NSE_EQ|X", Json.obj [])])]), ""⟩)
        (UpstreamResult.ok ⟨200, some (Json.obj [("data", Json.obj [("equity",
          Json.obj [("available_margin", Json.num 300)])])]), ""⟩)
        "BUY" "NSE_EQ|X" (Json.num 5) (Json.num 0)
      = (if (300 : Int) < 5 * 1000 then (false, some (insuffMsg (5 * 1000) 300))
         else (true, none),
         [Call.quoteLookup "NSE_EQ|X", Call.fundsMargin]) :=
  funds_check_fallback_price_1000
    (UpstreamResult.ok ⟨200, some (Json.obj [("data",
      Json.obj [("NSE_EQ|X", Json.obj [])])]), ""⟩)
    (UpstreamResult.ok ⟨200, some (Json.obj [("data", Json.obj [("equity",
      Json.obj [("available_margin", Json.num 300)])])]), ""⟩)
    "NSE_EQ|X" "BUY"
    ⟨200, some (Json.obj [("data", Json.obj [("NSE_EQ|X", Json.obj [])])]), ""⟩
    ⟨200, some (Json.obj [("data", Json.obj [("equity",
      Json.obj [("available_margin", Json.num 300)])])]), ""⟩
    (Json.obj [("data", Json.obj [("NSE_EQ|X", Json.obj [])])])
    (Json.obj [("data", Json.obj [("equity", Json.obj [("available_margin", Json.num 300)])])])
    0 300 5 rfl rfl rfl rfl (by decide) rfl rfl rfl rfl rfl

/-- The modification submission appends exactly the modify call to the
trace. -/
theorem doModify_calls (w : ModifyWorld) (oid : String) (prior : List Call) :
    (doModify w oid prior).calls = prior ++ [Call.orderModify oid] := by
  unfold doModify
  repeat' split
  all_goals rfl

/-- C5: an order modification whose body touches neither quantity nor price
performs no funds or quote lookup at all; the only upstream calls are the
order-details fetch and the modification itself. -/
theorem modify_order_only_details_and_modify
    (w : ModifyWorld) (oid : String) (m : ModReq)
    (hq : m.quantity = none) (hp : m.price = none) :
    ∀ c ∈ (modify_order w oid m).calls,
      c = Call.orderDetails oid ∨ c = Call.orderModify oid := by
  intro c hc
  unfold modify_order at hc
  repeat' split at hc
  all_goals try simp_all [doModify_calls]
  · rw [modProductGuard_some_calls ‹_›] at hc
    simp at hc

/-- Order details describe an existing BUY order; the funds endpoints are
deliberately unusable (the check must not run). -/
def wModValidity : ModifyWorld where
  details := .ok ⟨200, some (Json.obj [("data", Json.obj
    [("transaction_type", Json.str "BUY"), ("instrument_token", Json.str "NSE_EQ|X"),
     ("quantity", Json.num 10), ("price", Json.num 100)])]), ""⟩
  fundsQuote := .exn "unused"
  fundsMargin := .exn "unused"
  modifyResult := .ok ⟨200, some (Json.obj []), ""⟩

/-- A modification body that only changes validity. -/
def mOnlyValidity : ModReq where
  quantity := none
  price := none
  order_type := none
  validity := some (Json.str "IOC")
  disclosed_quantity := none
  trigger_price := none
  product := none

/-- Witness for C5: the validity-only modification of a BUY order forwards
upstream without any funds or margin lookup. -/
theorem modify_order_only_details_and_modify_witness :
    (modify_order wModValidity "42" mOnlyValidity).calls
      = [Call.orderDetails "42", Call.orderModify "42"]
    ∧ Call.fundsMargin ∉ (modify_order wModValidity "42" mOnlyValidity).calls :=
  ⟨rfl, fun hmem => by
    rcases modify_order_only_details_and_modify wModValidity "42" mOnlyValidity rfl rfl
      Call.fundsMargin hmem with h | h <;> exact Call.noConfusion h⟩

/-- C6: with an absent (empty) access token, every guarded endpoint answers
HTTP 401 with the Missing API token body and performs no upstream call at
all, whatever the request and whatever the upstream would have answered. -/
theorem guarded_endpoints_401_on_missing_token
    (w : PlaceWorld) (d : OrderReq) (mw : ModifyWorld) (oid : String) (m : ModReq)
    (u : UpstreamResult) :
    place_order_route "" w d
      = { body := jsonError "Missing API token", status := 401, calls := [] }
    ∧ modify_order_route "" mw oid m
      = { body := jsonError "Missing API token", status := 401, calls := [] }
    ∧ get_profile_route "" u
      = { body := jsonError "Missing API token", status := 401, calls := [] } :=
  ⟨rfl, rfl, rfl⟩

/-- Instrument valid, upstream placement succeeds with HTTP 201. -/
def wPlace201 : PlaceWorld where
  validateQuote := .ok ⟨200, none, ""⟩
  fundsQuote := .exn "unused"
  fundsMargin := .exn "unused"
  place := .ok ⟨201, some (Json.obj [("order_id", Json.str "OID1")]), ""⟩

/-- A well-formed SELL limit order request (no funds check on SELL). -/
def reqSellLimit : OrderReq where
  instrument_token := some "NSE_EQ|X"
  quantity := some (Json.num 10)
  order_type := some (Json.str "LIMIT")
  product := some (Json.str "CNC")
  transaction_type := some "SELL"
  price := some (Json.num 100)

/-- Counterexample to C7: a successful order placement is not a passthrough.
The upstream placement endpoint answers HTTP 201 with an order_id body, but
the local response has status 200 (not 201) and a success envelope that
differs from the upstream JSON. -/
theorem place_order_success_not_passthrough :
    wPlace201.place
      = UpstreamResult.ok ⟨201, some (Json.obj [("order_id", Json.str "OID1")]), ""⟩
    ∧ (place_order wPlace201 reqSellLimit).status = 200
    ∧ (place_order wPlace201 reqSellLimit).status ≠ 201
    ∧ (place_order wPlace201 reqSellLimit).body
        = Json.obj [("status", Json.str "success"),
            ("message", Json.str "SELL order placed successfully"),
            ("order_data", Json.obj [("order_id", Json.str "OID1")])]
    ∧ (place_order wPlace201 reqSellLimit).body ≠ Json.obj [("order_id", Json.str "OID1")] := by
  refine ⟨rfl, rfl, by decide, rfl, ?_⟩
  rw [show (place_order wPlace201 reqSellLimit).body
    = Json.obj [("status", Json.str "success"),
        ("message", Json.str "SELL order placed successfully"),
        ("order_data", Json.obj [("order_id", Json.str "OID1")])] from rfl]
  simp

/-- C7 amended: endpoints that answer through handle_response (profile,
portfolio, holdings, order list and details, cancel, quotes, funds, modify)
pass an upstream 200/201 JSON body through unmodified with the upstream
status code; successful order placement instead wraps the upstream JSON in a
success envelope under order_data and answers HTTP 200 even when the
upstream placement returned 201. -/
theorem handle_response_passthrough_and_success_envelope
    (r : HttpResponse) (j : Json)
    (w : PlaceWorld) (tok : String) (qty ot prod : Json) (tt : String) (pr : Option Json)
    (vr pl : HttpResponse) (pj : Json)
    (h2xx : r.status = 200 ∨ r.status = 201) (hj : r.json = some j)
    (hprod : pyInProductMap prod = Except.ok true)
    (hsell : (strUpper tt == "BUY") = false)
    (hv : w.validateQuote = UpstreamResult.ok vr) (hvs : vr.status = 200)
    (hpl : w.place = UpstreamResult.ok pl) (hpls : pl.status = 200 ∨ pl.status = 201)
    (hpj : pl.json = some pj) :
    handle_response r = Except.ok (j, r.status)
    ∧ get_profile (UpstreamResult.ok r)
      = { body := j, status := r.status, calls := [Call.userProfile] }
    ∧ place_order w ⟨some tok, some qty, some ot, some prod, some tt, pr⟩
      = { body := Json.obj [("status", Json.str "success"),
              ("message", Json.str (tt ++ " order placed successfully")),
              ("order_data", pj)],
          status := 200, calls := [Call.quoteLookup tok, Call.orderPlace] } := by
  have hhr : handle_response r = Except.ok (j, r.status) := by
    simp [handle_response, h2xx, hj]
  refine ⟨hhr, ?_, ?_⟩
  · simp [get_profile, hhr]
  · simp only [place_order, hprod, hv, validate_instrument, hvs, hsell,
      submitOrder, hpl, hpj]
    simp [hpls]

/-- Witness for the amended C7. -/
theorem handle_response_passthrough_and_success_envelope_witness :
    handle_response ⟨200, some (Json.obj [("p", Json.num 7)]), ""⟩
      = Except.ok (Json.obj [("p", Json.num 7)],
          (⟨200, some (Json.obj [("p", Json.num 7)]), ""⟩ : HttpResponse).status)
    ∧ get_profile (UpstreamResult.ok ⟨200, some (Json.obj [("p", Json.num 7)]), ""⟩)
      = { body := Json.obj [("p", Json.num 7)],
          status := (⟨200, some (Json.obj [("p", Json.num 7)]), ""⟩ : HttpResponse).status,
          calls := [Call.userProfile] }
    ∧ place_order wPlace201
        ⟨some "NSE_EQ|X", some (Json.num 10), some (Json.str "LIMIT"),
         some (Json.str "CNC"), some "SELL", some (Json.num 100)⟩
      = { body := Json.obj [("status", Json.str "success"),
              ("message", Json.str ("SELL" ++ " order placed successfully")),
              ("order_data", Json.obj [("order_id", Json.str "OID1")])],
          status := 200, calls := [Call.quoteLookup "NSE_EQ|X", Call.orderPlace] } :=
  handle_response_passthrough_and_success_envelope
    ⟨200, some (Json.obj [("p", Json.num 7)]), ""⟩ (Json.obj [("p", Json.num 7)])
    wPlace201 "NSE_EQ|X" (Json.num 10) (Json.str "LIMIT") (Json.str "CNC") "SELL"
    (some (Json.num 100)) ⟨200, none, ""⟩
    ⟨201, some (Json.obj [("order_id", Json.str "OID1")]), ""⟩
    (Json.obj [("order_id", Json.str "OID1")])
    (Or.inl rfl) rfl rfl (by decide) rfl rfl rfl (Or.inr rfl) rfl

/-- Counterexample to C8: an exception caught at the handler boundary is
answered with the body with single key error, which carries none of the
claimed status, code and message keys. -/
theorem handler_exception_error_shape :
    get_profile (UpstreamResult.exn "Connection refused")
      = { body := Json.obj [("error", Json.str "Connection refused")],
          status := 500, calls := [Call.userProfile] }
    ∧ lookupKey "status" [("error", Json.str "Connection refused")] = none
    ∧ lookupKey "code" [("error", Json.str "Connection refused")] = none
    ∧ lookupKey "message" [("error", Json.str "Connection refused")] = none :=
  ⟨rfl, rfl, rfl, rfl⟩

/-- C8 amended: upstream non-2xx replies are normalized by handle_response
to a status, code, message body carrying the upstream status code, while an
exception caught at the handler boundary is answered as a body with the
single key error and HTTP 500; in both cases the handler returns a response
rather than crashing (the handlers are total functions). -/
theorem error_responses_normalized
    (r : HttpResponse)
    (hnot : ¬(r.status = 200 ∨ r.status = 201)) :
    handle_response r
      = Except.ok (Json.obj [("status", Json.str "error"),
          ("code", Json.num (Int.ofNat r.status)), ("message", respErrMsg r)], r.status)
    ∧ get_profile (UpstreamResult.ok r)
      = { body := Json.obj [("status", Json.str "error"),
            ("code", Json.num (Int.ofNat r.status)), ("message", respErrMsg r)],
          status := r.status, calls := [Call.userProfile] }
    ∧ ∀ msg, get_profile (UpstreamResult.exn msg)
        = { body := jsonError msg, status := 500, calls := [Call.userProfile] } := by
  have hhr : handle_response r
      = Except.ok (Json.obj [("status", Json.str "error"),
          ("code", Json.num (Int.ofNat r.status)), ("message", respErrMsg r)], r.status) := by
    simp [handle_response, hnot]
  exact ⟨hhr, by simp [get_profile, hhr], fun msg => rfl⟩

/-- Witness for the amended C8 at an upstream 404. -/
theorem error_responses_normalized_witness :
    handle_response ⟨404, none, "not found"⟩
      = Except.ok (Json.obj [("status", Json.str "error"),
          ("code", Json.num (Int.ofNat (⟨404, none, "not found"⟩ : HttpResponse).status)),
          ("message", respErrMsg ⟨404, none, "not found"⟩)],
          (⟨404, none, "not found"⟩ : HttpResponse).status)
    ∧ get_profile (UpstreamResult.ok ⟨404, none, "not found"⟩)
      = { body := Json.obj [("status", Json.str "error"),
            ("code", Json.num (Int.ofNat (⟨404, none, "not found"⟩ : HttpResponse).status)),
            ("message", respErrMsg ⟨404, none, "not found"⟩)],
          status := (⟨404, none, "not found"⟩ : HttpResponse).status,
          calls := [Call.userProfile] }
    ∧ ∀ msg, get_profile (UpstreamResult.exn msg)
        = { body := jsonError msg, status := 500, calls := [Call.userProfile] } :=
  error_responses_normalized ⟨404, none, "not found"⟩ (by decide)

/-- The funds decision only ever performs the margin lookup. -/
theorem fundsDecision_calls (f : UpstreamResult) (tt : String) (qty p : Json) :
    ∀ c ∈ (fundsDecision f tt qty p).2, c = Call.fundsMargin := by
  intro c hc
  unfold fundsDecision at hc
  repeat' split at hc
  all_goals simp_all

/-- The whole funds check only ever performs the quote lookup for the given
instrument and the margin lookup. -/
theorem check_sufficient_funds_calls (q f : UpstreamResult) (tt tok : String) (qty p : Json) :
    ∀ c ∈ (check_sufficient_funds q f tt tok qty p).2,
      c = Call.quoteLookup tok ∨ c = Call.fundsMargin := by
  intro c hc
  unfold check_sufficient_funds at hc
  split at hc
  · rename_i r cs heq
    exact Or.inl (priceResolution_calls q tok p c (by rw [heq]; exact hc))
  · rename_i p2 cs heq
    dsimp only at hc
    rcases List.mem_append.1 hc with h1 | h1
    · exact Or.inl (priceResolution_calls q tok p c (by rw [heq]; exact h1))
    · exact Or.inr (fundsDecision_calls f tt qty p2 c h1)

/-- When instrument validation succeeds, the order is a BUY, and the funds
check comes back false, place_order answers with the 303 redirect built from
the check message and never reaches the placement call. -/
theorem place_order_check_false_redirects
    (w : PlaceWorld) (tok : String) (qty ot prod : Json) (tt : String) (pr : Option Json)
    (vr : HttpResponse)
    (hprod : pyInProductMap prod = Except.ok true)
    (hv : w.validateQuote = UpstreamResult.ok vr) (hvs : vr.status = 200)
    (hbuy : strUpper tt = "BUY")
    (hc : (check_sufficient_funds w.fundsQuote w.fundsMargin tt tok qty
      (pr.getD (Json.num 0))).1.1 = false) :
    place_order w ⟨some tok, some qty, some ot, some prod, some tt, pr⟩
      = { body := Json.obj [("status", Json.str "redirect"),
            ("message", optJson (check_sufficient_funds w.fundsQuote w.fundsMargin tt tok qty
              (pr.getD (Json.num 0))).1.2),
            ("redirect_url", Json.str (UPSTOX_FUNDS_URL ++
              "?reason=insufficient_funds&error=" ++
              optStr (check_sufficient_funds w.fundsQuote w.fundsMargin tt tok qty
                (pr.getD (Json.num 0))).1.2 ++ "&instrument=" ++ tok))],
          status := 303,
          calls := Call.quoteLookup tok ::
            (check_sufficient_funds w.fundsQuote w.fundsMargin tt tok qty
              (pr.getD (Json.num 0))).2 } := by
  simp only [place_order]
  simp [validate_instrument, hv, hvs, hprod, hbuy, hc]

/-- C9: an exception (network failure) during instrument validation or
during the funds check of a BUY order yields an error or redirect response
(HTTP 400 or 303) and the order is never forwarded upstream: a failed lookup
is never taken as approval. -/
theorem place_order_lookup_failure_never_forwards
    (w : PlaceWorld) (tok : String) (qty ot prod : Json) (tt : String) (pr : Option Json)
    (e : String)
    (hprod : pyInProductMap prod = Except.ok true)
    (hexn : w.validateQuote = UpstreamResult.exn e
      ∨ ((∃ vr, w.validateQuote = UpstreamResult.ok vr ∧ vr.status = 200)
          ∧ strUpper tt = "BUY"
          ∧ ((pyEqZero (pr.getD (Json.num 0)) = true ∧ w.fundsQuote = UpstreamResult.exn e)
             ∨ ((∃ p2 qc, priceResolution w.fundsQuote tok (pr.getD (Json.num 0))
                   = (Sum.inr p2, qc))
                 ∧ w.fundsMargin = UpstreamResult.exn e)))) :
    ((place_order w ⟨some tok, some qty, some ot, some prod, some tt, pr⟩).status = 400
      ∨ (place_order w ⟨some tok, some qty, some ot, some prod, some tt, pr⟩).status = 303)
    ∧ Call.orderPlace ∉ (place_order w ⟨some tok, some qty, some ot, some prod, some tt, pr⟩).calls := by
  rcases hexn with hv | ⟨⟨vr, hv, hvs⟩, hbuy, hsub⟩
  · have hre : place_order w ⟨some tok, some qty, some ot, some prod, some tt, pr⟩
        = { body := jsonError ("Invalid instrument: " ++ e), status := 400,
            calls := [Call.quoteLookup tok] } := by
      simp [place_order, hprod, hv, validate_instrument, optStr]
    rw [hre]
    exact ⟨Or.inl rfl, by simp⟩
  · have hcf : (check_sufficient_funds w.fundsQuote w.fundsMargin tt tok qty
        (pr.getD (Json.num 0))).1.1 = false := by
      rcases hsub with ⟨hz, hfq⟩ | ⟨⟨p2, qc, hres⟩, hfm⟩
      · simp [check_sufficient_funds, priceResolution, hz, hfq]
      · simp only [check_sufficient_funds, hres]
        rcases hmul : pyMulNum qty p2 with e2 | cost
        · simp [fundsDecision, hmul]
        · simp [fundsDecision, hmul, hbuy, hfm]
    rw [place_order_check_false_redirects w tok qty ot prod tt pr vr hprod hv hvs hbuy hcf]
    refine ⟨Or.inr rfl, ?_⟩
    intro hmem
    rcases List.mem_cons.1 hmem with h1 | h1
    · exact Call.noConfusion h1
    · rcases check_sufficient_funds_calls w.fundsQuote w.fundsMargin tt tok qty
        (pr.getD (Json.num 0)) Call.orderPlace h1 with h2 | h2 <;> exact Call.noConfusion h2

/-- Instrument validation raises a network exception. -/
def wValidateExn : PlaceWorld where
  validateQuote := .exn "Connection timeout"
  fundsQuote := .exn "unused"
  fundsMargin := .exn "unused"
  place := .exn "unused"

/-- Witness for C9, at a validation-time network failure. -/
theorem place_order_lookup_failure_never_forwards_witness :
    ((place_order wValidateExn
        ⟨some "NSE_EQ|X", some (Json.num 10), some (Json.str "LIMIT"),
         some (Json.str "CNC"), some "BUY", some (Json.num 100)⟩).status = 400
      ∨ (place_order wValidateExn
          ⟨some "NSE_EQ|X", some (Json.num 10), some (Json.str "LIMIT"),
           some (Json.str "CNC"), some "BUY", some (Json.num 100)⟩).status = 303)
    ∧ Call.orderPlace ∉ (place_order wValidateExn
        ⟨some "NSE_EQ|X", some (Json.num 10), some (Json.str "LIMIT"),
         some (Json.str "CNC"), some "BUY", some (Json.num 100)⟩).calls :=
  place_order_lookup_failure_never_forwards wValidateExn "NSE_EQ|X" (Json.num 10)
    (Json.str "LIMIT") (Json.str "CNC") "BUY" (some (Json.num 100)) "Connection timeout"
    rfl (Or.inl rfl)

/-- Order-details lookup answers HTTP 500. -/
def wModDetailsDown : ModifyWorld where
  details := .ok ⟨500, none, "server error"⟩
  fundsQuote := .exn "unused"
  fundsMargin := .exn "unused"
  modifyResult := .exn "unused"

/-- C10: when the order-details lookup of a modification does not return
HTTP 200, the handler answers HTTP 500 with the message Failed to retrieve
original order details and the upstream modify endpoint is never called. -/
theorem modify_order_details_failure_500
    (w : ModifyWorld) (oid : String) (m : ModReq) (dr : HttpResponse)
    (hpg : modProductGuard m.product = Except.ok none)
    (hd : w.details = UpstreamResult.ok dr) (hds : dr.status ≠ 200) :
    modify_order w oid m
      = { body := jsonError "Failed to retrieve original order details", status := 500,
          calls := [Call.orderDetails oid] }
    ∧ Call.orderModify oid ∉ [Call.orderDetails oid] := by
  refine ⟨?_, by simp⟩
  simp only [modify_order, hpg, hd]
  simp [hds]

/-- Witness for C10. -/
theorem modify_order_details_failure_500_witness :
    modify_order wModDetailsDown "42" mOnlyValidity
      = { body := jsonError "Failed to retrieve original order details", status := 500,
          calls := [Call.orderDetails "42"] }
    ∧ Call.orderModify "42" ∉ [Call.orderDetails "42"] :=
  modify_order_details_failure_500 wModDetailsDown "42" mOnlyValidity
    ⟨500, none, "server error"⟩ rfl rfl (by decide)
